import Mathlib

/-!
# Lead Intake Handler — shallow embedding

This file embeds the three near-duplicate lead-capture handler variants of
the repository in Lean 4 and proves properties about them.

* `handlerA` embeds the first `onRequest` of `functions/api/lead.js`
  (the variant with `pickAllowedOrigin`, `normalizeString`, a `company`
  honeypot and an outer try/catch).
* `handlerB` embeds the second `onRequest` of `functions/api/lead.js`
  (the variant with permissive CORS, an `hp || company` honeypot, a
  mandatory-consent check and per-step try/catch blocks).
* `handlerC` embeds the `onRequest` of the unnamed source file
  (the variant with `ALLOWED_ORIGINS`, `normalizeStr`, no honeypot,
  mandatory consent, and a Referer-based `source_path` fallback).

JavaScript strings are modelled as Lean `String`s (one `Char` per UTF-16
unit for the inputs considered here); JS field values as `JsVal`;
`undefined` as `Option.none`.  The platform pieces (D1 binding, webhook
fetch, body parsing) are modelled by an `Env` record of outcomes and a
`Body` that is either a parsed field map or a parse failure.
-/

/-- The set of characters matched by the JavaScript regex class `\s`
(and trimmed by `String.prototype.trim`): ASCII whitespace, NBSP, BOM,
line/paragraph separators and the Unicode space separators. -/
def isJsSpace (c : Char) : Bool :=
  c = ' ' || c = '\t' || c = '\n' || c = '\r' ||
  c.val = 11 || c.val = 12 || c.val = 0xa0 || c.val = 0xfeff ||
  c.val = 0x1680 || (0x2000 ≤ c.val && c.val ≤ 0x200a) ||
  c.val = 0x2028 || c.val = 0x2029 || c.val = 0x202f ||
  c.val = 0x205f || c.val = 0x3000

/-- JS `String.prototype.trim()`: strip leading and trailing whitespace. -/
def jsTrim (s : String) : String :=
  String.mk (((s.toList.dropWhile isJsSpace).reverse.dropWhile isJsSpace).reverse)

/-- JS `String.prototype.toLowerCase()` restricted to the ASCII range
(the only case mapping exercised by these handlers). -/
def jsToLower (s : String) : String :=
  String.mk (s.toList.map Char.toLower)

/-- JS `s.slice(0, n)` for `n ≥ 0`: the first `n` units of `s`. -/
def jsSlice (s : String) (n : Nat) : String :=
  String.mk (s.toList.take n)

/-- JS `s.length`. -/
def jsLen (s : String) : Nat := s.toList.length

/-- A JavaScript field value as it can appear in a parsed request body:
a string, a boolean, a number, or `null`.  `undefined` (an absent field)
is modelled as `Option.none` around `JsVal`. -/
inductive JsVal where
  | vstr : String → JsVal
  | vbool : Bool → JsVal
  | vnum : Int → JsVal
  | vnull : JsVal
deriving Repr, DecidableEq

/-- JS `String(v)` on a defined value. -/
def JsVal.toStr : JsVal → String
  | .vstr s => s
  | .vbool true => "true"
  | .vbool false => "false"
  | .vnum n => toString n
  | .vnull => "null"

/-- JS `v == null`, true exactly for `null` and `undefined`. -/
def jsIsNullish : Option JsVal → Bool
  | none => true
  | some .vnull => true
  | some _ => false

/-- JS truthiness of a possibly-undefined value. -/
def jsTruthy : Option JsVal → Bool
  | none => false
  | some .vnull => false
  | some (.vstr s) => s ≠ ""
  | some (.vbool b) => b
  | some (.vnum n) => n ≠ 0

/-- JS `String(v ?? "")`: nullish values become the empty string. -/
def jsStrNullish (v : Option JsVal) : String :=
  match v with
  | none => ""
  | some .vnull => ""
  | some w => w.toStr

/-- The regex character class `[^\s@]`. -/
def emailClassChar (c : Char) : Bool := !isJsSpace c && c ≠ '@'

/-- Matching of `[^\s@]+\.[^\s@]+` against the part after the `@`:
some decomposition `x ++ "." ++ y` with `x`, `y` non-empty and inside
the class. -/
def emailDomainMatch (post : List Char) : Bool :=
  (List.range post.length).any fun j =>
    post.getD j ' ' = '.' &&
    (post.take j) ≠ [] && (post.take j).all emailClassChar &&
    (post.drop (j + 1)) ≠ [] && (post.drop (j + 1)).all emailClassChar

/-- JS `/^[^\s@]+@[^\s@]+\.[^\s@]+$/.test(email)`: some decomposition
`l ++ "@" ++ r` where `l` is non-empty and inside the class and `r`
matches `[^\s@]+\.[^\s@]+`. -/
def jsEmailTest (s : String) : Bool :=
  let cs := s.toList
  (List.range cs.length).any fun i =>
    cs.getD i ' ' = '@' &&
    (cs.take i) ≠ [] && (cs.take i).all emailClassChar &&
    emailDomainMatch (cs.drop (i + 1))

/-- JS `s.startsWith(p)`. -/
def strStartsWith (s p : String) : Bool := p.toList.isPrefixOf s.toList

/-- JS `s.endsWith(p)`. -/
def strEndsWith (s p : String) : Bool := p.toList.isSuffixOf s.toList

/-- Model of the WHATWG `new URL(s).pathname` for absolute `http(s)`
URLs: the part from the first `/` after the authority up to a `?` or
`#`, or `/` when the authority is not followed by a path.  A string
that does not start with an `http(s)://` scheme is a parse failure
(`none`), modelling the `new URL` constructor throwing. -/
def parseURLPath (s : String) : Option String :=
  let rest? : Option (List Char) :=
    if strStartsWith s "https://" then some (s.toList.drop 8)
    else if strStartsWith s "http://" then some (s.toList.drop 7)
    else none
  match rest? with
  | none => none
  | some rest =>
    let afterAuth := rest.dropWhile fun c => c ≠ '/' && c ≠ '?' && c ≠ '#'
    match afterAuth with
    | [] => some "/"
    | c :: _ =>
      if c = '/' then some (String.mk (afterAuth.takeWhile fun c => c ≠ '?' && c ≠ '#'))
      else some "/"

/-- `new URL(u).pathname` for the platform-supplied `request.url`
(always a valid absolute URL on the platform). -/
def urlPathname (u : String) : String := (parseURLPath u).getD ""

/-- The flat field map a request body parses to.  Each field is absent
(`none`) or a JS value; the handlers only ever read these eight keys. -/
structure Fields where
  name : Option JsVal := none
  email : Option JsVal := none
  website : Option JsVal := none
  message : Option JsVal := none
  consent : Option JsVal := none
  source_path : Option JsVal := none
  company : Option JsVal := none
  hp : Option JsVal := none
deriving Repr, DecidableEq

/-- A request body: either it parses (under its declared content type)
to a field map, or parsing it throws. -/
inductive Body where
  | malformed : Body
  | fields : Fields → Body
deriving Repr, DecidableEq

/-- The parts of the incoming `Request` the handlers read.  Header
accessors return `none` for an absent header (JS `null`). -/
structure Request where
  method : String
  originHeader : Option String := none
  refererHeader : Option String := none
  userAgentHeader : Option String := none
  url : String := "https://audituniversepro.com/api/lead"
  body : Body := .fields {}
deriving Repr, DecidableEq

/-- The environment/platform outcomes a run of a handler depends on:
whether the `LEADS_DB` binding is configured, whether the D1 `run()`
throws, the `LEAD_WEBHOOK_URL` variable, and whether the webhook
`fetch` throws a network error. -/
structure Env where
  leadsDB : Bool := true
  insertFails : Bool := false
  webhookURL : Option String := none
  webhookFails : Bool := false
deriving Repr, DecidableEq

/-- The row bound into
`INSERT INTO leads (name, email, website, message, consent, source_path, user_agent)`;
`none` models binding SQL `null`. -/
structure LeadRow where
  name : Option String
  email : String
  website : Option String
  message : Option String
  consent : Int
  source_path : Option String
  user_agent : Option String
deriving Repr, DecidableEq

/-- The observable outcome of a handler run: the HTTP status, the `ok`
and `error` members of the JSON body (`ok = none` for a `null` body),
the variant-C `webhook_sent` member, the `Access-Control-Allow-Origin`
header (`none` = omitted), the rows inserted and the number of webhook
`fetch` calls attempted. -/
structure HResult where
  status : Nat
  ok : Option Bool := none
  error : Option String := none
  webhookSent : Option Bool := none
  corsOrigin : Option String := none
  inserts : List LeadRow := []
  webhookAttempts : Nat := 0
deriving Repr, DecidableEq

/-- `x || null` in the `bind(...)` calls: an empty string binds `null`. -/
def orNull (s : String) : Option String := if s = "" then none else some s

/-- The webhook-independent part of an outcome: status, `ok` body
member, and inserted rows. -/
def coreOutcome (r : HResult) : Nat × Option Bool × List LeadRow :=
  (r.status, r.ok, r.inserts)

/-! ## Variant A: the first `onRequest` of `functions/api/lead.js` -/

/-- The static CORS allow-list of variant A. -/
def allowA : List String :=
  ["https://audituniversepro.com", "https://www.audituniversepro.com"]

/-- `pickAllowedOrigin` of variant A: empty for an absent/empty Origin;
`*.pages.dev` and `http://localhost*` origins are reflected; otherwise
an allow-listed origin is reflected and anything else falls back to
`allow[0]`. -/
def pickAllowedOrigin (originHeader : Option String) : String :=
  let origin := originHeader.getD ""
  if origin = "" then ""
  else if strEndsWith origin ".pages.dev" then origin
  else if strStartsWith origin "http://localhost" then origin
  else if origin ∈ allowA then origin else allowA.getD 0 ""

/-- `normalizeString(v, max = 500)` of variant A: `""` for nullish
values, otherwise `String(v).trim()` truncated to `max` units when
longer. -/
def normalizeString (v : Option JsVal) (max : Nat := 500) : String :=
  if jsIsNullish v then ""
  else
    let s := jsTrim ((v.getD .vnull).toStr)
    if jsLen s > max then jsSlice s max else s

/-- The `Access-Control-Allow-Origin` header of `jsonResponse` in
variants A and C: present iff the resolved origin is non-empty. -/
def corsOpt (origin : String) : Option String :=
  if origin = "" then none else some origin

/-- Modelled from the spec: the `catch` arm of the first `onRequest`
in `functions/api/lead.js` is truncated in the source right after
`{ ok: false, error: "S`; per the spec ("unexpected exceptions → 500
with generic message (no internal detail leaked)") it returns status
500 with a generic server-error message.  Side effects performed
before the exception was thrown are retained. -/
def catchA (origin : String) (inserts : List LeadRow) (attempts : Nat) : HResult :=
  { status := 500, ok := some false, error := some "Server error",
    corsOrigin := corsOpt origin, inserts := inserts, webhookAttempts := attempts }

/-- Variant A `name`: `normalizeString(raw.name, 120)`. -/
def nameA (f : Fields) : String := normalizeString f.name 120

/-- Variant A `email`: `normalizeString(raw.email, 200).toLowerCase()`. -/
def emailA (f : Fields) : String := jsToLower (normalizeString f.email 200)

/-- Variant A `website`: `normalizeString(raw.website, 300)`. -/
def websiteA (f : Fields) : String := normalizeString f.website 300

/-- Variant A `message`: `normalizeString(raw.message, 2000)`. -/
def messageA (f : Fields) : String := normalizeString f.message 2000

/-- Variant A honeypot: `normalizeString(raw.company, 200)`. -/
def companyA (f : Fields) : String := normalizeString f.company 200

/-- Variant A `consentRaw`: `String(raw.consent ?? "").toLowerCase()`. -/
def consentRawA (f : Fields) : String := jsToLower (jsStrNullish f.consent)

/-- Variant A `consent`: 1 for `"1"`, `"true"` or `"on"` (after the
string coercion and lower-casing), else 0. -/
def consentA (f : Fields) : Int :=
  if consentRawA f = "1" ∨ consentRawA f = "true" ∨ consentRawA f = "on" then 1 else 0

/-- Variant A `source_path`:
`normalizeString(raw.source_path, 300) || new URL(request.url).pathname`. -/
def sourcePathA (req : Request) (f : Fields) : String :=
  let sp := normalizeString f.source_path 300
  if sp ≠ "" then sp else urlPathname req.url

/-- Variant A `user_agent`:
`normalizeString(request.headers.get("User-Agent"), 300)`. -/
def userAgentA (req : Request) : String :=
  normalizeString (req.userAgentHeader.map .vstr) 300

/-- The row variant A binds into the D1 insert:
`bind(name || null, email, website || null, message || null, consent,
source_path || null, user_agent || null)`. -/
def rowA (req : Request) (f : Fields) : LeadRow :=
  { name := orNull (nameA f), email := emailA f,
    website := orNull (websiteA f), message := orNull (messageA f),
    consent := consentA f, source_path := orNull (sourcePathA req f),
    user_agent := orNull (userAgentA req) }

/-- The first `onRequest` of `functions/api/lead.js` as a function from
environment and request to observable outcome. -/
def handlerA (env : Env) (req : Request) : HResult :=
  let origin := pickAllowedOrigin req.originHeader
  if req.method = "OPTIONS" then
    { status := 204, ok := some true, corsOrigin := corsOpt origin }
  else if req.method ≠ "POST" then
    { status := 405, ok := some false, error := some "Method not allowed",
      corsOrigin := corsOpt origin }
  else if ¬ env.leadsDB then
    { status := 500, ok := some false, error := some "Missing D1 binding: LEADS_DB",
      corsOrigin := corsOpt origin }
  else match req.body with
  | .malformed => catchA origin [] 0
  | .fields raw =>
    if companyA raw ≠ "" then
      { status := 200, ok := some true, corsOrigin := corsOpt origin }
    else if emailA raw = "" ∨ ¬ jsEmailTest (emailA raw) then
      { status := 400, ok := some false, error := some "Valid email is required.",
        corsOrigin := corsOpt origin }
    else if env.insertFails then
      catchA origin [] 0
    else
      let row := rowA req raw
      match env.webhookURL with
      | some hook =>
        if hook ≠ "" then
          if env.webhookFails then catchA origin [row] 1
          else
            { status := 200, ok := some true, corsOrigin := corsOpt origin,
              inserts := [row], webhookAttempts := 1 }
        else
          { status := 200, ok := some true, corsOrigin := corsOpt origin,
            inserts := [row], webhookAttempts := 0 }
      | none =>
        { status := 200, ok := some true, corsOrigin := corsOpt origin,
          inserts := [row], webhookAttempts := 0 }

/-! ## Variant B: the second `onRequest` of `functions/api/lead.js` -/

/-- Variant B `str`: `(v == null ? "" : String(v)).trim()`. -/
def strB (v : Option JsVal) : String :=
  jsTrim (if jsIsNullish v then "" else (v.getD .vnull).toStr)

/-- Variant B `Access-Control-Allow-Origin`: the request Origin when
present, else `"*"` — always sent. -/
def acaoB (req : Request) : Option String :=
  some (if req.originHeader.getD "" = "" then "*" else req.originHeader.getD "")

/-- Variant B honeypot: `str(data.hp || data.company)`. -/
def hpB (f : Fields) : String :=
  strB (if jsTruthy f.hp then f.hp else f.company)

/-- Variant B `name`: `str(data.name).slice(0, 120)`. -/
def nameB (f : Fields) : String := jsSlice (strB f.name) 120

/-- Variant B `email`: `str(data.email).slice(0, 200)` (no
lower-casing). -/
def emailB (f : Fields) : String := jsSlice (strB f.email) 200

/-- Variant B `website`: `str(data.website).slice(0, 300)`. -/
def websiteB (f : Fields) : String := jsSlice (strB f.website) 300

/-- Variant B `message`: `str(data.message).slice(0, 3000)`. -/
def messageB (f : Fields) : String := jsSlice (strB f.message) 3000

/-- Variant B `source_path`: `str(data.source_path).slice(0, 500)`. -/
def sourcePathB (f : Fields) : String := jsSlice (strB f.source_path) 500

/-- Variant B `user_agent`:
`str(request.headers.get("User-Agent")).slice(0, 400)`. -/
def userAgentB (req : Request) : String :=
  jsSlice (strB (req.userAgentHeader.map .vstr)) 400

/-- Variant B `consentRaw`: `str(data.consent).toLowerCase()`. -/
def consentRawB (f : Fields) : String := jsToLower (strB f.consent)

/-- Variant B `consent`:
`["1", "true", "on", "yes"].includes(consentRaw) ? 1 : 0`. -/
def consentB (f : Fields) : Int :=
  if consentRawB f ∈ ["1", "true", "on", "yes"] then 1 else 0

/-- The row variant B binds into the D1 insert. -/
def rowB (req : Request) (f : Fields) : LeadRow :=
  { name := orNull (nameB f), email := emailB f,
    website := orNull (websiteB f), message := orNull (messageB f),
    consent := consentB f, source_path := orNull (sourcePathB f),
    user_agent := orNull (userAgentB req) }

/-- The second `onRequest` of `functions/api/lead.js` as a function
from environment and request to observable outcome.  A body that fails
to parse is replaced by the empty object (`data = {}` in the `catch`);
webhook `fetch` errors are swallowed. -/
def handlerB (env : Env) (req : Request) : HResult :=
  let cors := acaoB req
  if req.method = "OPTIONS" then
    { status := 204, corsOrigin := cors }
  else if req.method ≠ "POST" then
    { status := 405, ok := some false, error := some "Method not allowed. Use POST.",
      corsOrigin := cors }
  else
    let data := match req.body with
      | .malformed => ({} : Fields)
      | .fields f => f
    if hpB data ≠ "" then
      { status := 200, ok := some true, corsOrigin := cors }
    else if emailB data = "" then
      { status := 400, ok := some false, error := some "Email is required.",
        corsOrigin := cors }
    else if ¬ jsEmailTest (emailB data) then
      { status := 400, ok := some false, error := some "Invalid email format.",
        corsOrigin := cors }
    else if consentB data = 0 then
      { status := 400, ok := some false, error := some "Consent is required.",
        corsOrigin := cors }
    else if ¬ env.leadsDB then
      { status := 500, ok := some false,
        error := some "Server not configured (LEADS_DB missing).", corsOrigin := cors }
    else if env.insertFails then
      { status := 500, ok := some false, error := some "Database insert failed.",
        corsOrigin := cors }
    else
      let row := rowB req data
      let webhook := strB (env.webhookURL.map .vstr)
      if webhook ≠ "" then
        { status := 200, ok := some true, corsOrigin := cors,
          inserts := [row], webhookAttempts := 1 }
      else
        { status := 200, ok := some true, corsOrigin := cors,
          inserts := [row], webhookAttempts := 0 }

/-! ## Variant C: the `onRequest` of the unnamed source file -/

/-- The `ALLOWED_ORIGINS` set of variant C. -/
def allowedOriginsC : List String :=
  ["https://audituniversepro.com", "https://www.audituniversepro.com",
   "https://audituniversepro-site.pages.dev",
   "http://localhost:8000", "http://127.0.0.1:8000",
   "http://localhost:8788", "http://127.0.0.1:8788"]

/-- `getAllowedOrigin`: empty for an absent/empty Origin, the origin
itself when allow-listed, empty otherwise. -/
def getAllowedOrigin (originHeader : Option String) : String :=
  match originHeader with
  | none => ""
  | some o => if o = "" then "" else if o ∈ allowedOriginsC then o else ""

/-- `normalizeStr(v, maxLen = 4000)` of variant C. -/
def normalizeStr (v : Option JsVal) (maxLen : Nat := 4000) : String :=
  if jsIsNullish v then ""
  else
    let s := jsTrim ((v.getD .vnull).toStr)
    if jsLen s > maxLen then jsSlice s maxLen else s

/-- The `catch` arm of variant C (`"Server error"`, 500), keeping side
effects performed before the exception. -/
def catchC (cors : Option String) (inserts : List LeadRow) (attempts : Nat) : HResult :=
  { status := 500, ok := some false, error := some "Server error",
    corsOrigin := cors, inserts := inserts, webhookAttempts := attempts }

/-- Variant C `name`: `normalizeStr(body.name, 200)`. -/
def nameC (f : Fields) : String := normalizeStr f.name 200

/-- Variant C `email`: `normalizeStr(body.email, 200).toLowerCase()`. -/
def emailC (f : Fields) : String := jsToLower (normalizeStr f.email 200)

/-- Variant C `website`: `normalizeStr(body.website, 500)`. -/
def websiteC (f : Fields) : String := normalizeStr f.website 500

/-- Variant C `message`: `normalizeStr(body.message, 4000)`. -/
def messageC (f : Fields) : String := normalizeStr f.message 4000

/-- Variant C `consent`: strict-equality comparison of the raw value
against `true`, `"true"`, `"1"`, `1` and `"on"`. -/
def consentC (f : Fields) : Bool :=
  (f.consent == some (.vbool true)) || (f.consent == some (.vstr "true")) ||
  (f.consent == some (.vstr "1")) || (f.consent == some (.vnum 1)) ||
  (f.consent == some (.vstr "on"))

/-- Variant C `source_path`: the caller-supplied value when non-empty,
else the Referer's pathname when the header is present and parses,
else the request URL's pathname. -/
def sourcePathC (req : Request) (f : Fields) : String :=
  let sp0 := normalizeStr f.source_path 500
  if sp0 ≠ "" then sp0
  else
    let ref := req.refererHeader.getD ""
    let sp1 := if ref ≠ "" then
        match parseURLPath ref with
        | some p => p
        | none => ""
      else ""
    if sp1 ≠ "" then sp1 else urlPathname req.url

/-- Variant C `user_agent`:
`normalizeStr(request.headers.get("User-Agent") || "", 500)`. -/
def userAgentC (req : Request) : String :=
  normalizeStr (some (.vstr (req.userAgentHeader.getD ""))) 500

/-- The row variant C binds into the D1 insert:
`bind(name, email, website, message, 1, source_path, user_agent)` —
no `|| null` substitution, consent bound as the literal 1. -/
def rowC (req : Request) (f : Fields) : LeadRow :=
  { name := some (nameC f), email := emailC f,
    website := some (websiteC f), message := some (messageC f),
    consent := 1, source_path := some (sourcePathC req f),
    user_agent := some (userAgentC req) }

/-- The `onRequest` of the unnamed source file as a function from
environment and request to observable outcome.  `readBody` has no
try/catch, so a malformed body propagates to the outer `catch`;
webhook failures are swallowed and reported via `webhook_sent`. -/
def handlerC (env : Env) (req : Request) : HResult :=
  let cors := corsOpt (getAllowedOrigin req.originHeader)
  if req.method = "OPTIONS" then
    { status := 204, corsOrigin := cors }
  else if req.method ≠ "POST" then
    { status := 405, ok := some false, error := some "Method not allowed",
      corsOrigin := cors }
  else match req.body with
  | .malformed => catchC cors [] 0
  | .fields body =>
    if emailC body = "" ∨ ¬ jsEmailTest (emailC body) then
      { status := 400, ok := some false, error := some "Invalid email",
        corsOrigin := cors }
    else if ¬ consentC body then
      { status := 400, ok := some false, error := some "Consent required",
        corsOrigin := cors }
    else if ¬ env.leadsDB then
      { status := 500, ok := some false,
        error := some "Server misconfiguration (LEADS_DB missing)", corsOrigin := cors }
    else if env.insertFails then
      catchC cors [] 0
    else
      let row := rowC req body
      let hook := jsTrim (env.webhookURL.getD "")
      if hook ≠ "" then
        if env.webhookFails then
          { status := 200, ok := some true, webhookSent := some false,
            corsOrigin := cors, inserts := [row], webhookAttempts := 1 }
        else
          { status := 200, ok := some true, webhookSent := some true,
            corsOrigin := cors, inserts := [row], webhookAttempts := 1 }
      else
        { status := 200, ok := some true, webhookSent := some false,
          corsOrigin := cors, inserts := [row], webhookAttempts := 0 }

/-! ## Concrete test fixtures -/

/-- A well-configured environment without a webhook. -/
def envPlain : Env := {}

/-- A well-configured environment with a webhook URL. -/
def envHook : Env := { webhookURL := some "https://hook.example/make" }

/-- A webhook-configured environment whose webhook `fetch` throws. -/
def envHookFail : Env :=
  { webhookURL := some "https://hook.example/make", webhookFails := true }

/-- An environment with the `LEADS_DB` binding absent. -/
def envNoDB : Env := { leadsDB := false }

/-- A POST request carrying the given parsed field map. -/
def postReq (f : Fields) : Request := { method := "POST", body := .fields f }

/-- A minimal valid submission: name, valid email, consent `"on"`. -/
def fieldsValid : Fields :=
  { name := some (.vstr "Jo"), email := some (.vstr "a@b.com"),
    consent := some (.vstr "on") }

/-- An otherwise-valid submission with the `company` honeypot filled. -/
def fieldsSpam : Fields :=
  { email := some (.vstr "a@b.com"), consent := some (.vstr "on"),
    company := some (.vstr "SpamBot") }

/-- A valid submission whose email has mixed case and padding. -/
def fieldsMixed : Fields :=
  { email := some (.vstr " A@B.com "), consent := some (.vstr "on") }

/-- An invalid-email submission with the `hp` honeypot filled. -/
def fieldsHpBad : Fields :=
  { hp := some (.vstr "x"), email := some (.vstr "bad") }

/-- A valid-email submission with consent given as `"yes"`. -/
def fieldsYes : Fields :=
  { email := some (.vstr "a@b.com"), consent := some (.vstr "yes") }

/-- A consented submission whose email fails the regex. -/
def fieldsBad : Fields :=
  { email := some (.vstr "not-an-email"), consent := some (.vstr "on") }

/-- A POST request whose body fails to parse. -/
def reqMal : Request := { method := "POST", body := .malformed }

/-- An OPTIONS preflight from an origin on no allow-list. -/
def optReqEvil : Request :=
  { method := "OPTIONS", originHeader := some "https://evil.example" }

/-- A valid POST without `source_path` but with a Referer header. -/
def reqRef : Request :=
  { method := "POST", body := .fields fieldsValid,
    refererHeader := some "https://audituniversepro.com/pricing",
    url := "https://audituniversepro.com/api/lead" }

/-! ## Helper lemmas -/

lemma jsTrim_of_all_space {w : String} (hw : ∀ c ∈ w.toList, isJsSpace c) :
    jsTrim w = "" := by
  obtain ⟨data⟩ := w
  have h : data.dropWhile isJsSpace = [] :=
    List.dropWhile_eq_nil_iff.mpr (by simpa [String.toList] using hw)
  simp [jsTrim, String.toList, h]

lemma jsSlice_of_le {s : String} {n : Nat} (h : s.toList.length ≤ n) :
    jsSlice s n = s := by
  obtain ⟨data⟩ := s
  simp only [String.toList] at h
  simp [jsSlice, String.toList, List.take_of_length_le h]

lemma normalizeString_vstr (s : String) (max : Nat) :
    normalizeString (some (.vstr s)) max = jsSlice (jsTrim s) max := by
  by_cases h : jsLen (jsTrim s) > max
  · simp [normalizeString, jsIsNullish, JsVal.toStr, h]
  · simp [normalizeString, jsIsNullish, JsVal.toStr, h]
    exact (jsSlice_of_le (Nat.le_of_not_lt h)).symm

lemma normalizeStr_vstr (s : String) (max : Nat) :
    normalizeStr (some (.vstr s)) max = jsSlice (jsTrim s) max := by
  by_cases h : jsLen (jsTrim s) > max
  · simp [normalizeStr, jsIsNullish, JsVal.toStr, h]
  · simp [normalizeStr, jsIsNullish, JsVal.toStr, h]
    exact (jsSlice_of_le (Nat.le_of_not_lt h)).symm

lemma handlerA_inserts {env : Env} {req : Request} {f : Fields}
    (hb : req.body = .fields f) :
    (handlerA env req).inserts = [] ∨ (handlerA env req).inserts = [rowA req f] := by
  simp only [handlerA, hb]
  repeat' split
  all_goals first
    | (left; rfl)
    | (right; rfl)

lemma handlerB_inserts {env : Env} {req : Request} {f : Fields}
    (hb : req.body = .fields f) :
    (handlerB env req).inserts = [] ∨ (handlerB env req).inserts = [rowB req f] := by
  simp only [handlerB, hb]
  repeat' split
  all_goals first
    | (left; rfl)
    | (right; rfl)

lemma handlerC_inserts {env : Env} {req : Request} {f : Fields}
    (hb : req.body = .fields f) :
    (handlerC env req).inserts = [] ∨ (handlerC env req).inserts = [rowC req f] := by
  simp only [handlerC, hb]
  repeat' split
  all_goals first
    | (left; rfl)
    | (right; rfl)

/-! ## Claims -/

/-- **C1**, counterexample.  The claim says a non-empty honeypot field
(`company` or `hp`) makes *every* handler variant return `200 {ok:true}`
with no insert and no webhook call.  Variant C has no honeypot at all:
an otherwise-valid POST with `company = "SpamBot"` is inserted and
forwarded to the webhook. -/
theorem C1_counterexample :
    (handlerC envHook (postReq fieldsSpam)).inserts ≠ [] ∧
    (handlerC envHook (postReq fieldsSpam)).webhookAttempts ≠ 0 := by decide

/-- **C1** (amended).  Variant B silently accepts (200, `ok:true`, no
insert, no webhook call) any POST whose trimmed `hp`-or-`company`
honeypot is non-empty; variant A does the same for a non-empty trimmed
`company` (when the storage binding is present — the binding check runs
first); variant C implements no honeypot: its outcome never depends on
the `company`/`hp` fields. -/
theorem C1_amended (env : Env) (req : Request) (f : Fields)
    (hm : req.method = "POST") (hb : req.body = .fields f) :
    (hpB f ≠ "" →
      handlerB env req = { status := 200, ok := some true, corsOrigin := acaoB req }) ∧
    (env.leadsDB = true → companyA f ≠ "" →
      handlerA env req =
        { status := 200, ok := some true,
          corsOrigin := corsOpt (pickAllowedOrigin req.originHeader) }) ∧
    (handlerC env req =
      handlerC env { req with body := .fields { f with company := none, hp := none } }) := by
  refine ⟨?_, ?_, ?_⟩
  · intro hhp
    simp [handlerB, hm, hb, hhp]
  · intro hdb hcomp
    simp [handlerA, hm, hb, hdb, hcomp]
  · simp only [handlerC, hb]
    rfl

/-- **C1**, witness for the amended theorem. -/
theorem C1_witness :
    handlerB envPlain (postReq fieldsSpam) =
      { status := 200, ok := some true, corsOrigin := acaoB (postReq fieldsSpam) } :=
  ((C1_amended envPlain (postReq fieldsSpam) fieldsSpam rfl rfl).1 (by decide))

/-- **C2**, counterexample.  The claim says a webhook network error
never changes the success status in any variant.  In variant A the
`fetch` is awaited inside the outer try/catch with no inner handler, so
the same valid submission that succeeds with a working webhook is
answered with the catch arm's 500 — after the row was inserted — when
the webhook fetch throws. -/
theorem C2_counterexample :
    (handlerA envHook (postReq fieldsValid)).status = 200 ∧
    (handlerA envHookFail (postReq fieldsValid)).status = 500 ∧
    (handlerA envHookFail (postReq fieldsValid)).inserts ≠ [] := by decide

/-- **C2** (amended).  In variants B and C a webhook fetch failure is
swallowed: variant B's whole outcome is independent of it, and variant
C's status, `ok` field and inserted rows are unchanged (only its
`webhook_sent` flag reports the failure).  In variant A the failure
escapes to the catch arm and turns the response into the generic 500
(see the counterexample). -/
theorem C2_amended (env : Env) (req : Request) (b : Bool) :
    handlerB { env with webhookFails := b } req = handlerB env req ∧
    coreOutcome (handlerC { env with webhookFails := b } req) =
      coreOutcome (handlerC env req) := by
  obtain ⟨db, insf, url, whf⟩ := env
  refine ⟨rfl, ?_⟩
  by_cases h1 : req.method = "OPTIONS"
  · simp [handlerC, h1]
  by_cases h2 : req.method = "POST"
  · rcases hb : req.body with _ | f
    · simp [handlerC, h1, h2, hb, catchC]
    by_cases h3 : emailC f = "" ∨ jsEmailTest (emailC f) = false
    · simp [handlerC, h1, h2, hb, h3]
    by_cases h4 : consentC f = false
    · simp [handlerC, h1, h2, hb, h3, h4]
    by_cases h5 : db = false
    · simp [handlerC, h1, h2, hb, h3, h4, h5]
    by_cases h6 : insf = true
    · simp [handlerC, h1, h2, hb, h3, h4, h5, h6, catchC]
    by_cases h7 : jsTrim (url.getD "") = ""
    · simp [handlerC, h1, h2, hb, h3, h4, h5, h6, h7]
    · simp [handlerC, h1, h2, hb, h3, h4, h5, h6, h7, coreOutcome, apply_ite]
  · simp [handlerC, h1, h2]

/-- **C3**, counterexample.  The claim says the email bound into the
insert is trimmed *and lower-cased* in every variant.  Variant B never
lower-cases: `" A@B.com "` is stored as `"A@B.com"`, not as the
trimmed-and-lower-cased `"a@b.com"`. -/
theorem C3_counterexample :
    ((handlerB envPlain (postReq fieldsMixed)).inserts.map (·.email)) = ["A@B.com"] ∧
    "A@B.com" ≠ jsToLower (jsTrim " A@B.com ") := by decide

/-- **C3** (amended).  For every inserted row: variants A and C bind
the caller-supplied email trimmed, truncated to 200 units and
lower-cased; variant B binds it trimmed and truncated to 200 units but
*not* lower-cased. -/
theorem C3_amended (env : Env) (req : Request) (f : Fields) (s : String) (r : LeadRow)
    (hb : req.body = .fields f) (he : f.email = some (.vstr s)) :
    (r ∈ (handlerA env req).inserts → r.email = jsToLower (jsSlice (jsTrim s) 200)) ∧
    (r ∈ (handlerC env req).inserts → r.email = jsToLower (jsSlice (jsTrim s) 200)) ∧
    (r ∈ (handlerB env req).inserts → r.email = jsSlice (jsTrim s) 200) := by
  refine ⟨?_, ?_, ?_⟩
  · intro hr
    rcases handlerA_inserts hb with h | h
    · rw [h] at hr
      exact absurd hr (List.not_mem_nil r)
    · rw [h] at hr
      simp only [List.mem_singleton] at hr
      rw [hr]
      simp [rowA, emailA, he, normalizeString_vstr]
  · intro hr
    rcases handlerC_inserts hb with h | h
    · rw [h] at hr
      exact absurd hr (List.not_mem_nil r)
    · rw [h] at hr
      simp only [List.mem_singleton] at hr
      rw [hr]
      simp [rowC, emailC, he, normalizeStr_vstr]
  · intro hr
    rcases handlerB_inserts hb with h | h
    · rw [h] at hr
      exact absurd hr (List.not_mem_nil r)
    · rw [h] at hr
      simp only [List.mem_singleton] at hr
      rw [hr]
      simp [rowB, emailB, he, strB, jsIsNullish, JsVal.toStr]

/-- **C3**, witness for the amended theorem: the row variant A inserts
for the mixed-case submission carries the trimmed lower-cased email. -/
theorem C3_witness :
    (rowA (postReq fieldsMixed) fieldsMixed).email =
      jsToLower (jsSlice (jsTrim " A@B.com ") 200) :=
  (C3_amended envPlain (postReq fieldsMixed) fieldsMixed " A@B.com "
    (rowA (postReq fieldsMixed) fieldsMixed) rfl rfl).1 (by decide)

/-- **C4**, counterexample.  The claim says any POST with an invalid
normalized email gets a 400 in every variant.  In variant B the
honeypot check runs first: a POST with `hp = "x"` and the invalid email
`"bad"` is answered 200, not 400. -/
theorem C4_counterexample :
    (handlerB envPlain (postReq fieldsHpBad)).status = 200 ∧
    jsEmailTest (emailB fieldsHpBad) = false := by decide

/-- **C4** (amended).  An empty-or-regex-failing normalized email is
rejected with `400 {ok:false}` and no insert — provided the request
reaches the email check: in variant A the storage binding must be
present and the honeypot empty, in variant B the honeypot must be
empty, and in variant C it holds for every parsed POST body. -/
theorem C4_amended (env : Env) (req : Request) (f : Fields)
    (hm : req.method = "POST") (hb : req.body = .fields f) :
    (env.leadsDB = true → companyA f = "" →
      (emailA f = "" ∨ jsEmailTest (emailA f) = false) →
      handlerA env req =
        { status := 400, ok := some false, error := some "Valid email is required.",
          corsOrigin := corsOpt (pickAllowedOrigin req.originHeader) }) ∧
    (hpB f = "" →
      (emailB f = "" ∨ jsEmailTest (emailB f) = false) →
      (handlerB env req).status = 400 ∧ (handlerB env req).ok = some false ∧
        (handlerB env req).inserts = []) ∧
    ((emailC f = "" ∨ jsEmailTest (emailC f) = false) →
      handlerC env req =
        { status := 400, ok := some false, error := some "Invalid email",
          corsOrigin := corsOpt (getAllowedOrigin req.originHeader) }) := by
  refine ⟨?_, ?_, ?_⟩
  · rintro hdb hcomp (h | h) <;> simp [handlerA, hm, hb, hdb, hcomp, h]
  · rintro hhp (h | h)
    · simp [handlerB, hm, hb, hhp, h]
    · by_cases he0 : emailB f = ""
      · simp [handlerB, hm, hb, hhp, he0]
      · simp [handlerB, hm, hb, hhp, he0, h]
  · rintro (h | h) <;> simp [handlerC, hm, hb, h]

/-- **C4**, witness for the amended theorem (variant C on
`"not-an-email"`). -/
theorem C4_witness :
    handlerC envPlain (postReq fieldsBad) =
      { status := 400, ok := some false, error := some "Invalid email",
        corsOrigin := corsOpt (getAllowedOrigin (postReq fieldsBad).originHeader) } :=
  (C4_amended envPlain (postReq fieldsBad) fieldsBad rfl rfl).2.2 (by decide)

lemma iteOneZero_eq_one (P : Prop) [Decidable P] :
    ((if P then (1 : Int) else 0) = 1) ↔ P := by
  split <;> rename_i h
  · exact iff_of_true rfl h
  · exact iff_of_false (by decide) h

/-- **C5**, counterexample.  The claim says `"yes"` is coerced to true
(stored as 1) by every variant.  Variant A stores consent 0 for a
`"yes"` submission, and variant C rejects it outright with
`400 Consent required`. -/
theorem C5_counterexample :
    ((handlerA envPlain (postReq fieldsYes)).inserts.map (·.consent)) = [0] ∧
    (handlerC envPlain (postReq fieldsYes)).status = 400 ∧
    (handlerC envPlain (postReq fieldsYes)).error = some "Consent required" := by
  decide

/-- **C5** (amended).  Variant B coerces exactly the trimmed,
lower-cased strings `"1"`, `"true"`, `"on"`, `"yes"` (hence also
boolean `true`, which stringifies to `"true"`) to 1 and everything
else to 0.  Variant A accepts only `"1"`, `"true"`, `"on"` after
string coercion and lower-casing (no trim), and variant C accepts only
the exact values `true`, `"true"`, `"1"`, `1`, `"on"`; in particular
`"yes"` is coerced to false by A and by C. -/
theorem C5_amended :
    (∀ s : String, consentA { consent := some (.vstr s) } = 1 ↔
      (jsToLower s = "1" ∨ jsToLower s = "true" ∨ jsToLower s = "on")) ∧
    consentA { consent := some (.vbool true) } = 1 ∧
    consentA { consent := some (.vstr "yes") } = 0 ∧
    (∀ s : String, consentB { consent := some (.vstr s) } = 1 ↔
      jsToLower (jsTrim s) ∈ (["1", "true", "on", "yes"] : List String)) ∧
    consentB { consent := some (.vbool true) } = 1 ∧
    (∀ v : Option JsVal, consentC { consent := v } = true ↔
      v ∈ [some (.vbool true), some (.vstr "true"), some (.vstr "1"),
           some (.vnum 1), some (.vstr "on")]) ∧
    consentC { consent := some (.vstr "yes") } = false := by
  refine ⟨fun s => ?_, by decide, by decide, fun s => ?_, by decide, fun v => ?_, by decide⟩
  · exact iteOneZero_eq_one _
  · exact iteOneZero_eq_one _
  · simp [consentC, beq_iff_eq]
    tauto

/-- **C6**, counterexample.  The claim says every variant degrades a
malformed body to an empty field map and continues.  Variant C's
`readBody` has no try/catch: a malformed POST body is answered with
the catch arm's `500 Server error`, while the same request with an
empty field map would continue the pipeline to a 400. -/
theorem C6_counterexample :
    (handlerC envPlain reqMal).status = 500 ∧
    (handlerC envPlain reqMal).error = some "Server error" ∧
    (handlerC envPlain { reqMal with body := .fields {} }).status = 400 := by decide

/-- **C6** (amended).  Only variant B degrades a malformed body to the
empty field map and continues (its outcome equals that of the same
request with an empty map); in variants A and C the parse error
propagates to the outer catch and the POST is answered 500 with no
insert. -/
theorem C6_amended (env : Env) (req : Request)
    (hm : req.method = "POST") (hmal : req.body = .malformed) :
    handlerB env req = handlerB env { req with body := .fields {} } ∧
    (handlerC env req).status = 500 ∧ (handlerC env req).error = some "Server error" ∧
    (handlerC env req).inserts = [] ∧
    (handlerA env req).status = 500 ∧ (handlerA env req).inserts = [] := by
  refine ⟨?_, ?_, ?_, ?_, ?_, ?_⟩
  · simp only [handlerB, hmal]
    rfl
  · simp [handlerC, hm, hmal, catchC]
  · simp [handlerC, hm, hmal, catchC]
  · simp [handlerC, hm, hmal, catchC]
  · by_cases hdb : env.leadsDB = false <;> simp [handlerA, hm, hmal, hdb, catchA]
  · by_cases hdb : env.leadsDB = false <;> simp [handlerA, hm, hmal, hdb, catchA]

/-- **C6**, witness for the amended theorem. -/
theorem C6_witness :
    handlerB envPlain reqMal = handlerB envPlain { reqMal with body := .fields {} } :=
  (C6_amended envPlain reqMal rfl rfl).1

lemma pickAllowedOrigin_mem {o : String} (h : o ∈ allowA) :
    pickAllowedOrigin (some o) = o := by
  fin_cases h <;> decide

lemma getAllowedOrigin_mem {o : String} (h : o ∈ allowedOriginsC) :
    getAllowedOrigin (some o) = o := by
  fin_cases h <;> decide

lemma mem_allowedOriginsC_ne_empty {o : String} (h : o ∈ allowedOriginsC) :
    o ≠ "" := by
  fin_cases h <;> decide

lemma mem_allowA_ne_empty {o : String} (h : o ∈ allowA) : o ≠ "" := by
  fin_cases h <;> decide

lemma getAllowedOrigin_notMem {o : String} (h : o ∉ allowedOriginsC) :
    getAllowedOrigin (some o) = "" := by
  by_cases ho : o = "" <;> simp [getAllowedOrigin, ho, h]

/-- **C7**, counterexample.  The claim says every variant omits the
CORS origin header for a disallowed Origin on OPTIONS.  For the
disallowed origin `https://evil.example`, variant B reflects it and
variant A answers with the primary production origin — neither omits
the header. -/
theorem C7_counterexample :
    (handlerB envPlain optReqEvil).status = 204 ∧
    (handlerB envPlain optReqEvil).corsOrigin = some "https://evil.example" ∧
    (handlerA envPlain optReqEvil).corsOrigin = some "https://audituniversepro.com" ∧
    "https://evil.example" ∉ allowA ∧
    "https://evil.example" ∉ allowedOriginsC := by decide

/-- **C7** (amended).  OPTIONS requests are answered 204 with no insert
and no webhook call by every variant.  The CORS origin header differs:
variant C reflects the Origin exactly when it is in its allow-list and
omits it otherwise; variant A reflects allow-listed origins (and, not
claimed here, `*.pages.dev` / localhost ones) but answers disallowed
origins with the primary production origin; variant B always sends the
header, reflecting any Origin and using `*` when the Origin is absent
or empty. -/
theorem C7_amended (env : Env) (req : Request) (o : String)
    (hm : req.method = "OPTIONS") :
    ((handlerA env req).status = 204 ∧ (handlerA env req).inserts = [] ∧
      (handlerA env req).webhookAttempts = 0) ∧
    ((handlerB env req).status = 204 ∧ (handlerB env req).inserts = [] ∧
      (handlerB env req).webhookAttempts = 0) ∧
    ((handlerC env req).status = 204 ∧ (handlerC env req).inserts = [] ∧
      (handlerC env req).webhookAttempts = 0) ∧
    (req.originHeader = some o →
      (o ∈ allowedOriginsC → (handlerC env req).corsOrigin = some o) ∧
      (o ∉ allowedOriginsC → (handlerC env req).corsOrigin = none) ∧
      ((handlerB env req).corsOrigin = some (if o = "" then "*" else o)) ∧
      (o ∈ allowA → (handlerA env req).corsOrigin = some o) ∧
      (o ≠ "" → strEndsWith o ".pages.dev" = false →
        strStartsWith o "http://localhost" = false → o ∉ allowA →
        (handlerA env req).corsOrigin = some "https://audituniversepro.com")) := by
  refine ⟨⟨?_, ?_, ?_⟩, ⟨?_, ?_, ?_⟩, ⟨?_, ?_, ?_⟩, ?_⟩
  · simp [handlerA, hm]
  · simp [handlerA, hm]
  · simp [handlerA, hm]
  · simp [handlerB, hm]
  · simp [handlerB, hm]
  · simp [handlerB, hm]
  · simp [handlerC, hm]
  · simp [handlerC, hm]
  · simp [handlerC, hm]
  intro hO
  refine ⟨?_, ?_, ?_, ?_, ?_⟩
  · intro h
    simp [handlerC, hm, hO, getAllowedOrigin_mem h, corsOpt,
      mem_allowedOriginsC_ne_empty h]
  · intro h
    simp [handlerC, hm, hO, getAllowedOrigin_notMem h, corsOpt]
  · simp [handlerB, hm, acaoB, hO]
  · intro h
    simp [handlerA, hm, hO, pickAllowedOrigin_mem h, corsOpt,
      mem_allowA_ne_empty h]
  · intro ho hpd hlh hmem
    simp only [allowA, List.mem_cons, List.mem_singleton, not_or] at hmem
    simp [handlerA, hm, hO, pickAllowedOrigin, ho, hpd, hlh, hmem.1, hmem.2,
      corsOpt, allowA]

/-- **C7**, witness for the amended theorem: variant C omits the header
for the disallowed origin of the preflight fixture. -/
theorem C7_witness :
    (handlerC envPlain optReqEvil).corsOrigin = none :=
  ((C7_amended envPlain optReqEvil "https://evil.example" rfl).2.2.2
    rfl).2.1 (by decide)

/-- **C8**, counterexample.  The claim says an absent caller
`source_path` falls back to the Referer's path before the request
path, in every variant.  Variant A never consults the Referer: with
Referer path `/pricing` it stores the request path `/api/lead`. -/
theorem C8_counterexample :
    ((handlerA envPlain reqRef).inserts.map (·.source_path)) = [some "/api/lead"] ∧
    parseURLPath "https://audituniversepro.com/pricing" = some "/pricing" ∧
    (some "/api/lead" : Option String) ≠ some "/pricing" := by decide

/-- **C8** (amended).  Only variant C implements the three-step
resolution (caller value, else Referer pathname, else request
pathname).  Variant A ignores the Referer entirely and falls back
directly to the request URL's pathname; variant B also ignores the
Referer and has no fallback at all — an empty caller value is bound as
`null`. -/
theorem C8_amended (env : Env) (req : Request) (f : Fields) (r : LeadRow)
    (x : Option String) (hb : req.body = .fields f) :
    (handlerA env { req with refererHeader := x } = handlerA env req) ∧
    (normalizeString f.source_path 300 ≠ "" → r ∈ (handlerA env req).inserts →
      r.source_path = some (normalizeString f.source_path 300)) ∧
    (normalizeString f.source_path 300 = "" → r ∈ (handlerA env req).inserts →
      r.source_path = orNull (urlPathname req.url)) ∧
    (handlerB env { req with refererHeader := x } = handlerB env req) ∧
    (r ∈ (handlerB env req).inserts →
      r.source_path = orNull (jsSlice (strB f.source_path) 500)) ∧
    (strB f.source_path = "" → r ∈ (handlerB env req).inserts →
      r.source_path = none) ∧
    (normalizeStr f.source_path 500 ≠ "" → r ∈ (handlerC env req).inserts →
      r.source_path = some (normalizeStr f.source_path 500)) ∧
    (normalizeStr f.source_path 500 = "" →
      ∀ ref p : String, req.refererHeader = some ref → ref ≠ "" →
        parseURLPath ref = some p → p ≠ "" → r ∈ (handlerC env req).inserts →
        r.source_path = some p) ∧
    (normalizeStr f.source_path 500 = "" → req.refererHeader = none →
      r ∈ (handlerC env req).inserts →
      r.source_path = some (urlPathname req.url)) := by
  have memA : r ∈ (handlerA env req).inserts → r = rowA req f := by
    intro hr
    rcases handlerA_inserts hb with h | h
    · rw [h] at hr
      exact absurd hr (List.not_mem_nil r)
    · rw [h] at hr
      simpa using hr
  have memB : r ∈ (handlerB env req).inserts → r = rowB req f := by
    intro hr
    rcases handlerB_inserts hb with h | h
    · rw [h] at hr
      exact absurd hr (List.not_mem_nil r)
    · rw [h] at hr
      simpa using hr
  have memC : r ∈ (handlerC env req).inserts → r = rowC req f := by
    intro hr
    rcases handlerC_inserts hb with h | h
    · rw [h] at hr
      exact absurd hr (List.not_mem_nil r)
    · rw [h] at hr
      simpa using hr
  refine ⟨rfl, ?_, ?_, rfl, ?_, ?_, ?_, ?_, ?_⟩
  · intro hsp hr
    rw [memA hr]
    simp [rowA, sourcePathA, orNull, hsp]
  · intro hsp hr
    rw [memA hr]
    simp [rowA, sourcePathA, hsp]
  · intro hr
    rw [memB hr]
    simp [rowB, sourcePathB]
  · intro hsp hr
    rw [memB hr]
    simp [rowB, sourcePathB, hsp, orNull, jsSlice]
  · intro hsp hr
    rw [memC hr]
    simp [rowC, sourcePathC, hsp]
  · intro hsp ref p href href0 hp hp0 hr
    rw [memC hr]
    simp [rowC, sourcePathC, hsp, href, href0, hp, hp0]
  · intro hsp href hr
    rw [memC hr]
    simp [rowC, sourcePathC, hsp, href]

/-- **C8**, witness for the amended theorem: variant C stores the
Referer pathname `/pricing` for the fixture without a caller-supplied
`source_path`. -/
theorem C8_witness :
    (rowC reqRef fieldsValid).source_path = some "/pricing" :=
  (C8_amended envPlain reqRef fieldsValid (rowC reqRef fieldsValid) none
      rfl).2.2.2.2.2.2.2.1 rfl "https://audituniversepro.com/pricing" "/pricing"
    rfl (by decide) (by decide) (by decide) (by decide)

/-- **C9**, counterexample.  The claim says that with `LEADS_DB` absent
every POST gets a 500 in every variant.  With the binding absent,
variant B answers a honeypot POST 200 and variant C answers an
invalid-email POST 400 — their binding check only runs at insert
time. -/
theorem C9_counterexample :
    (handlerB envNoDB (postReq fieldsSpam)).status = 200 ∧
    (handlerC envNoDB (postReq fieldsBad)).status = 400 := by decide

/-- **C9** (amended).  With the `LEADS_DB` binding absent, variant A
answers every POST (with any body, even an unparseable one) with the
500 configuration error, because its binding check precedes body
parsing.  Variants B and C only reach their binding check once a
submission passes the honeypot (B) and validation steps; those
submissions get the 500 configuration error, while earlier branches
keep their usual 200/400 statuses. -/
theorem C9_amended (env : Env) (req : Request) (f : Fields)
    (hdb : env.leadsDB = false) (hm : req.method = "POST") :
    ((handlerA env req).status = 500 ∧
      (handlerA env req).error = some "Missing D1 binding: LEADS_DB") ∧
    (req.body = .fields f → hpB f = "" → emailB f ≠ "" →
      jsEmailTest (emailB f) = true → consentB f ≠ 0 →
      (handlerB env req).status = 500 ∧
        (handlerB env req).error = some "Server not configured (LEADS_DB missing).") ∧
    (req.body = .fields f → hpB f ≠ "" → (handlerB env req).status = 200) ∧
    (req.body = .fields f → emailC f ≠ "" → jsEmailTest (emailC f) = true →
      consentC f = true →
      (handlerC env req).status = 500 ∧
        (handlerC env req).error = some "Server misconfiguration (LEADS_DB missing)") := by
  refine ⟨?_, ?_, ?_, ?_⟩
  · constructor <;> simp [handlerA, hm, hdb]
  · intro hb hhp he0 hval hcons
    constructor <;> simp [handlerB, hm, hb, hhp, he0, hval, hcons, hdb]
  · intro hb hhp
    simp [handlerB, hm, hb, hhp]
  · intro hb he0 hval hcons
    constructor <;> simp [handlerC, hm, hb, he0, hval, hcons, hdb]

/-- **C9**, witness for the amended theorem. -/
theorem C9_witness :
    (handlerA envNoDB (postReq fieldsValid)).status = 500 ∧
    (handlerA envNoDB (postReq fieldsValid)).error =
      some "Missing D1 binding: LEADS_DB" :=
  (C9_amended envNoDB (postReq fieldsValid) fieldsValid rfl rfl).1

/-- **C10**.  A honeypot value consisting only of whitespace is not
treated as a bot by the variants that implement the honeypot: the
value is trimmed before the emptiness check, so the run is identical
to one with the honeypot fields absent — including validation and
insert. -/
theorem C10_theorem (env : Env) (req : Request) (f : Fields) (w1 w2 : String)
    (hw1 : ∀ c ∈ w1.toList, isJsSpace c) (hw2 : ∀ c ∈ w2.toList, isJsSpace c) :
    handlerA env { req with body := .fields { f with company := some (.vstr w1) } } =
      handlerA env { req with body := .fields { f with company := none } } ∧
    handlerB env
        { req with body := .fields { f with hp := some (.vstr w1),
                                            company := some (.vstr w2) } } =
      handlerB env { req with body := .fields { f with hp := none, company := none } } := by
  have hA1 : companyA { f with company := some (.vstr w1) } = "" := by
    simp [companyA, normalizeString_vstr, jsTrim_of_all_space hw1, jsSlice]
  have hA2 : companyA { f with company := none } = "" := rfl
  have hB1 : hpB { f with hp := some (.vstr w1), company := some (.vstr w2) } = "" := by
    simp only [hpB, jsTruthy]
    by_cases hw1e : w1 = ""
    · subst hw1e
      simp [strB, jsIsNullish, JsVal.toStr, jsTrim_of_all_space hw2]
    · simp [hw1e, strB, jsIsNullish, JsVal.toStr, jsTrim_of_all_space hw1]
  have hB2 : hpB { f with hp := none, company := none } = "" := rfl
  constructor
  · simp only [handlerA, hA1, hA2]
    rfl
  · simp only [handlerB, hB1, hB2]
    rfl

/-- **C10**, witness: a single-space `company`/`hp` behaves exactly as
no honeypot at all; the valid fixture is inserted either way. -/
theorem C10_witness :
    (handlerA envPlain
        { postReq fieldsValid with
            body := .fields { fieldsValid with company := some (.vstr " ") } } =
      handlerA envPlain
        { postReq fieldsValid with
            body := .fields { fieldsValid with company := none } }) ∧
    (handlerA envPlain
        { postReq fieldsValid with
            body := .fields { fieldsValid with company := some (.vstr " ") } }).inserts ≠ [] :=
  ⟨(C10_theorem envPlain (postReq fieldsValid) fieldsValid " " " "
      (by decide) (by decide)).1,
   by decide⟩
